import Mathlib

/-!
Shallow embedding of the frame-buffer management and pixel-format conversion
subsystem of the `usb_video_class` repository (file `src/frame.c`), together
with proofs about its behaviour.

Modelling conventions:
* Byte buffers are `List Nat` whose length models the allocated capacity and
  whose entries are the stored byte values; a `NULL` pointer is `Option.none`.
* Reads past the end of a buffer (out-of-bounds reads, undefined behaviour in
  the C source) return 0 via `List.getD`; writes past the end of a buffer are
  dropped (`writeBytes` truncates at the capacity).
* `realloc`/`malloc` success is an explicit oracle parameter `allocOk`;
  functions that allocate also return the number of (re)allocations they
  performed, so that "no reallocation happened" is observable.
* Sizes and dimensions are unbounded naturals: the source uses `uint32_t`
  dimensions and `size_t` byte counts, and no claim involves frames anywhere
  near the wrap-around range.
* All state passing is explicit: a C function mutating its `out` argument is
  a Lean function returning the new frame value, so the source frame is
  never modified by construction.
-/

/-- Error codes returned by the frame routines (`uvc_error_t`); only the
constructors actually produced by `frame.c` are modelled.  In C all of the
error codes are negative and `UVC_SUCCESS` is zero. -/
inductive UvcError where
  | success
  | invalidParam
  | noMem
  | notSupported
deriving DecidableEq, Repr

/-- Truth of the C test `err < 0`: every modelled error code except
`UVC_SUCCESS` is negative. -/
def UvcError.isNeg : UvcError → Bool
  | .success => false
  | _ => true

/-- Frame formats (`enum uvc_frame_format`); the constructors cover the
formats named by the dispatch routers and the claims, every other format
behaves like the `default` arm of the C `switch`. -/
inductive UvcFrameFormat where
  | unknown
  | yuyv
  | uyvy
  | rgb
  | bgr
  | mjpeg
  | h264
  | gray8
  | gray16
  | by8
  | ba81
  | sgrbg8
  | sgbrg8
  | srggb8
  | sbggr8
  | nv12
deriving DecidableEq, Repr

/-- Model of `struct uvc_frame` (the fields used by `frame.c`). -/
structure UvcFrame where
  data : Option (List Nat)
  data_bytes : Nat
  width : Nat
  height : Nat
  frame_format : UvcFrameFormat
  step : Nat
  sequence : Nat
  capture_time : Int
  capture_time_finished : Int
  source : Nat
  library_owns_data : Bool
  metadata : Option (List Nat)
  metadata_bytes : Nat
deriving DecidableEq, Repr

/-- Byte buffer of a frame; a `NULL` data pointer reads as the empty buffer. -/
def frameBytes (f : UvcFrame) : List Nat := f.data.getD []

/-- Metadata buffer of a frame; `NULL` reads as the empty buffer. -/
def frameMeta (f : UvcFrame) : List Nat := f.metadata.getD []

/-- Read of one byte at index `i`; an out-of-bounds read returns 0. -/
def readByte (buf : List Nat) (i : Nat) : Nat := buf.getD i 0

/-- Model of a successful `realloc(old, n)`: the result has capacity exactly
`n`, the first `min n |old|` bytes are preserved, the newly allocated bytes
are unspecified (modelled as 0, never observed by any claim). -/
def reallocBuf (old : Option (List Nat)) (n : Nat) : List Nat :=
  ((old.getD []).take n) ++ List.replicate (n - (old.getD []).length) 0

/-- Overwrite of the prefix of buffer `old` with the byte stream `written`;
writes beyond the capacity of `old` fall outside the buffer and are dropped. -/
def writeBytes (old written : List Nat) : List Nat :=
  (written ++ old.drop written.length).take old.length

/-- Consistency of a frame's data pointer with its `data_bytes` field: the
field equals the true capacity of the buffer (a `NULL` buffer has capacity
0). -/
def dataConsistent (f : UvcFrame) : Prop :=
  (frameBytes f).length = f.data_bytes

instance (f : UvcFrame) : Decidable (dataConsistent f) := by
  unfold dataConsistent; infer_instance

/-- Consistency of a frame's metadata pointer with its `metadata_bytes`
field. -/
def metaConsistent (f : UvcFrame) : Prop :=
  (frameMeta f).length = f.metadata_bytes

instance (f : UvcFrame) : Decidable (metaConsistent f) := by
  unfold metaConsistent; infer_instance

/-- Embedding of `uvc_ensure_frame_size` (frame.c lines 10-24).  The extra
result component counts the `realloc` calls performed (0 or 1). -/
def uvc_ensure_frame_size (allocOk : Bool) (frame : UvcFrame) (need_bytes : Nat) :
    UvcError × UvcFrame × Nat :=
  if frame.library_owns_data then
    if frame.data = none ∨ frame.data_bytes ≠ need_bytes then
      let newData : Option (List Nat) :=
        if allocOk then some (reallocBuf frame.data need_bytes) else none
      let frame1 := { frame with data_bytes := need_bytes, data := newData }
      if frame1.data = none then (.noMem, frame1, 1) else (.success, frame1, 1)
    else
      (.success, frame, 0)
  else
    if frame.data = none ∨ frame.data_bytes < need_bytes then (.noMem, frame, 0)
    else (.success, frame, 0)

/-- Branch equation: owning frame, reallocation needed and succeeding. -/
lemma ensure_eq_realloc_ok (f : UvcFrame) (n : Nat)
    (howns : f.library_owns_data = true)
    (hcond : f.data = none ∨ f.data_bytes ≠ n) :
    uvc_ensure_frame_size true f n =
      (.success, { f with data_bytes := n, data := some (reallocBuf f.data n) }, 1) := by
  unfold uvc_ensure_frame_size
  rw [if_pos howns, if_pos hcond]
  rfl

/-- Branch equation: owning frame, reallocation needed and failing. -/
lemma ensure_eq_realloc_fail (f : UvcFrame) (n : Nat)
    (howns : f.library_owns_data = true)
    (hcond : f.data = none ∨ f.data_bytes ≠ n) :
    uvc_ensure_frame_size false f n =
      (.noMem, { f with data_bytes := n, data := none }, 1) := by
  unfold uvc_ensure_frame_size
  rw [if_pos howns, if_pos hcond]
  rfl

/-- Branch equation: owning frame whose buffer is already present with the
exact requested size; no reallocation happens. -/
lemma ensure_eq_owns_keep (allocOk : Bool) (f : UvcFrame) (n : Nat)
    (howns : f.library_owns_data = true)
    (hcond : ¬(f.data = none ∨ f.data_bytes ≠ n)) :
    uvc_ensure_frame_size allocOk f n = (.success, f, 0) := by
  unfold uvc_ensure_frame_size
  rw [if_pos howns, if_neg hcond]

/-- Branch equation: borrowed frame; the frame is never modified and no
allocation is performed. -/
lemma ensure_eq_borrowed (allocOk : Bool) (f : UvcFrame) (n : Nat)
    (howns : f.library_owns_data = false) :
    uvc_ensure_frame_size allocOk f n =
      (if f.data = none ∨ f.data_bytes < n then (.noMem, f, 0)
       else (.success, f, 0)) := by
  unfold uvc_ensure_frame_size
  rw [if_neg (by simp [howns])]

/-- On success for an owning frame, `uvc_ensure_frame_size` leaves the data
pointer present with `data_bytes = need_bytes`, and preserves buffer/field
consistency. -/
lemma ensure_owns_success (allocOk : Bool) (f : UvcFrame) (n : Nat)
    (howns : f.library_owns_data = true)
    (hsucc : (uvc_ensure_frame_size allocOk f n).1 = .success) :
    (uvc_ensure_frame_size allocOk f n).2.1.data_bytes = n ∧
    (uvc_ensure_frame_size allocOk f n).2.1.data.isSome = true ∧
    (dataConsistent f → dataConsistent (uvc_ensure_frame_size allocOk f n).2.1) := by
  by_cases hcond : f.data = none ∨ f.data_bytes ≠ n
  · cases allocOk with
    | false =>
      rw [ensure_eq_realloc_fail f n howns hcond] at hsucc
      simp at hsucc
    | true =>
      rw [ensure_eq_realloc_ok f n howns hcond]
      refine ⟨rfl, rfl, fun _ => ?_⟩
      unfold dataConsistent frameBytes reallocBuf
      simp only [Option.getD_some]
      rw [List.length_append, List.length_take, List.length_replicate]
      omega
  · rw [ensure_eq_owns_keep allocOk f n howns hcond]
    push_neg at hcond
    exact ⟨hcond.2, Option.isSome_iff_ne_none.mpr hcond.1, fun h => h⟩

/-- Claim C2 as frozen is false on the code: a realloc failure in the owning
branch of `uvc_ensure_frame_size` returns OutOfMemory with `data_bytes`
already updated to the requested size while `data` has become `NULL`, so the
two fields are neither both left as they were nor consistent with each
other.  Concrete input: an owning frame with a 3-byte buffer, request of 7
bytes, allocation failing. -/
theorem claim_C2_counterexample :
    let f : UvcFrame :=
      { data := some [1, 2, 3], data_bytes := 3, width := 0, height := 0,
        frame_format := .yuyv, step := 0, sequence := 0, capture_time := 0,
        capture_time_finished := 0, source := 0, library_owns_data := true,
        metadata := none, metadata_bytes := 0 }
    let r := uvc_ensure_frame_size false f 7
    dataConsistent f ∧
    r.1 = .noMem ∧
    ¬ dataConsistent r.2.1 ∧
    r.2.1.data_bytes ≠ f.data_bytes ∧
    r.2.1.data ≠ f.data := by
  decide

/-- Claim C2, amended: when `uvc_ensure_frame_size` returns OutOfMemory, a
borrowed frame is left completely unchanged, but on an owning frame the
failure of `realloc` leaves `data_bytes` updated to the requested size with
`data` now absent — an inconsistent pair that the caller must not use. -/
theorem claim_C2_ensure_failure_state (allocOk : Bool) (f : UvcFrame) (n : Nat)
    (hfail : (uvc_ensure_frame_size allocOk f n).1 = .noMem) :
    (f.library_owns_data = false ∧ (uvc_ensure_frame_size allocOk f n).2.1 = f) ∨
    (f.library_owns_data = true ∧
      (uvc_ensure_frame_size allocOk f n).2.1.data = none ∧
      (uvc_ensure_frame_size allocOk f n).2.1.data_bytes = n) := by
  by_cases howns : f.library_owns_data
  · right
    refine ⟨howns, ?_⟩
    by_cases hcond : f.data = none ∨ f.data_bytes ≠ n
    · cases allocOk with
      | false => rw [ensure_eq_realloc_fail f n howns hcond]; exact ⟨rfl, rfl⟩
      | true =>
        rw [ensure_eq_realloc_ok f n howns hcond] at hfail
        simp at hfail
    · rw [ensure_eq_owns_keep allocOk f n howns hcond] at hfail
      simp at hfail
  · simp only [Bool.not_eq_true] at howns
    left
    refine ⟨howns, ?_⟩
    rw [ensure_eq_borrowed allocOk f n howns] at hfail ⊢
    by_cases hcond : f.data = none ∨ f.data_bytes < n
    · rw [if_pos hcond]
    · rw [if_neg hcond] at hfail
      simp at hfail

/-- Witness for the amended C2 theorem: a borrowed frame with no buffer fails
with OutOfMemory and is left unchanged. -/
theorem claim_C2_witness :
    let f : UvcFrame :=
      { data := none, data_bytes := 0, width := 0, height := 0,
        frame_format := .yuyv, step := 0, sequence := 0, capture_time := 0,
        capture_time_finished := 0, source := 0, library_owns_data := false,
        metadata := none, metadata_bytes := 0 }
    (uvc_ensure_frame_size true f 5).1 = .noMem ∧
    ((f.library_owns_data = false ∧ (uvc_ensure_frame_size true f 5).2.1 = f) ∨
     (f.library_owns_data = true ∧
       (uvc_ensure_frame_size true f 5).2.1.data = none ∧
       (uvc_ensure_frame_size true f 5).2.1.data_bytes = 5)) := by
  refine ⟨by decide, claim_C2_ensure_failure_state true _ 5 (by decide)⟩

/-- Read side of `memcpy(dst, src, n)`: the list of the first `n` bytes of
`src` (out-of-bounds reads give 0, as in `readByte`). -/
def copyFrom (src : List Nat) (n : Nat) : List Nat :=
  (List.range n).map (fun i => readByte src i)

lemma copyFrom_length (src : List Nat) (n : Nat) : (copyFrom src n).length = n := by
  simp [copyFrom]

lemma copyFrom_read (src : List Nat) (n i : Nat) (h : i < n) :
    readByte (copyFrom src n) i = readByte src i := by
  unfold copyFrom readByte
  rw [List.getD_eq_getElem _ _ (by simpa using h)]
  simp

lemma writeBytes_exact (old written : List Nat) (h : old.length = written.length) :
    writeBytes old written = written := by
  unfold writeBytes
  rw [← h, List.drop_length, List.append_nil, List.take_of_length_le (le_of_eq h.symm)]

/-- Every branch of `uvc_ensure_frame_size` leaves all fields other than
`data` and `data_bytes` unchanged. -/
lemma ensure_preserves (allocOk : Bool) (f : UvcFrame) (n : Nat) :
    let r := (uvc_ensure_frame_size allocOk f n).2.1
    r.width = f.width ∧ r.height = f.height ∧ r.frame_format = f.frame_format ∧
    r.step = f.step ∧ r.sequence = f.sequence ∧ r.capture_time = f.capture_time ∧
    r.capture_time_finished = f.capture_time_finished ∧ r.source = f.source ∧
    r.library_owns_data = f.library_owns_data ∧ r.metadata = f.metadata ∧
    r.metadata_bytes = f.metadata_bytes := by
  unfold uvc_ensure_frame_size
  split
  · split
    · dsimp only
      split <;> exact ⟨rfl, rfl, rfl, rfl, rfl, rfl, rfl, rfl, rfl, rfl, rfl⟩
    · exact ⟨rfl, rfl, rfl, rfl, rfl, rfl, rfl, rfl, rfl, rfl, rfl⟩
  · split <;> exact ⟨rfl, rfl, rfl, rfl, rfl, rfl, rfl, rfl, rfl, rfl, rfl⟩

/-- Embedding of `uvc_duplicate_frame` (frame.c lines 82-108).  The last two
result components count the data reallocations (performed inside
`uvc_ensure_frame_size`) and the metadata reallocations.  The metadata
`realloc` has no failure check in the source and is modelled as succeeding. -/
def uvc_duplicate_frame (allocOk : Bool) (inf out : UvcFrame) :
    UvcError × UvcFrame × Nat × Nat :=
  let e := uvc_ensure_frame_size allocOk out inf.data_bytes
  if e.1.isNeg then (.noMem, e.2.1, e.2.2, 0)
  else
    let out1 := e.2.1
    let out2 := { out1 with
      width := inf.width, height := inf.height, frame_format := inf.frame_format,
      step := inf.step, sequence := inf.sequence, capture_time := inf.capture_time,
      capture_time_finished := inf.capture_time_finished, source := inf.source,
      data := some (writeBytes (frameBytes out1) (copyFrom (frameBytes inf) inf.data_bytes)) }
    match inf.metadata with
    | some m =>
      if 0 < inf.metadata_bytes then
        let metaOld : List Nat :=
          if out2.metadata_bytes < inf.metadata_bytes then
            reallocBuf out2.metadata inf.metadata_bytes
          else frameMeta out2
        (.success,
         { out2 with
             metadata := some (writeBytes metaOld (copyFrom m inf.metadata_bytes)),
             metadata_bytes := inf.metadata_bytes },
         e.2.2,
         if out2.metadata_bytes < inf.metadata_bytes then 1 else 0)
      else (.success, out2, e.2.2, 0)
    | none => (.success, out2, e.2.2, 0)

lemma writeBytes_length (old w : List Nat) : (writeBytes old w).length = old.length := by
  unfold writeBytes
  rw [List.length_take, List.length_append, List.length_drop]
  omega

lemma readByte_writeBytes (old w : List Nat) (i : Nat) (hw : i < w.length)
    (ho : i < old.length) :
    readByte (writeBytes old w) i = readByte w i := by
  unfold writeBytes readByte
  rw [List.getD_eq_getElem _ _ (by rw [List.length_take, List.length_append, List.length_drop]; omega),
      List.getD_eq_getElem _ _ hw]
  rw [List.getElem_take]
  exact List.getElem_append_left hw

/-- Failure branch of `uvc_duplicate_frame`: the error of the size check is
surfaced as OutOfMemory and the metadata stage never runs. -/
lemma dup_fail (allocOk : Bool) (inf out : UvcFrame)
    (h : (uvc_ensure_frame_size allocOk out inf.data_bytes).1.isNeg = true) :
    uvc_duplicate_frame allocOk inf out =
      (.noMem, (uvc_ensure_frame_size allocOk out inf.data_bytes).2.1,
       (uvc_ensure_frame_size allocOk out inf.data_bytes).2.2, 0) := by
  unfold uvc_duplicate_frame
  dsimp only
  rw [if_pos h]

/-- Success path of `uvc_duplicate_frame`, independent of the metadata
branch: result code, copied data and verbatim field copies. -/
lemma dup_success_core (allocOk : Bool) (inf out : UvcFrame)
    (hnn : (uvc_ensure_frame_size allocOk out inf.data_bytes).1.isNeg = false) :
    (uvc_duplicate_frame allocOk inf out).1 = .success ∧
    (uvc_duplicate_frame allocOk inf out).2.1.data =
      some (writeBytes (frameBytes (uvc_ensure_frame_size allocOk out inf.data_bytes).2.1)
        (copyFrom (frameBytes inf) inf.data_bytes)) ∧
    (uvc_duplicate_frame allocOk inf out).2.1.data_bytes =
      (uvc_ensure_frame_size allocOk out inf.data_bytes).2.1.data_bytes ∧
    (uvc_duplicate_frame allocOk inf out).2.1.width = inf.width ∧
    (uvc_duplicate_frame allocOk inf out).2.1.height = inf.height ∧
    (uvc_duplicate_frame allocOk inf out).2.1.frame_format = inf.frame_format ∧
    (uvc_duplicate_frame allocOk inf out).2.1.step = inf.step ∧
    (uvc_duplicate_frame allocOk inf out).2.1.sequence = inf.sequence ∧
    (uvc_duplicate_frame allocOk inf out).2.1.capture_time = inf.capture_time ∧
    (uvc_duplicate_frame allocOk inf out).2.1.capture_time_finished = inf.capture_time_finished ∧
    (uvc_duplicate_frame allocOk inf out).2.1.source = inf.source := by
  unfold uvc_duplicate_frame
  dsimp only
  rw [if_neg (by simp [hnn])]
  split
  · split
    · exact ⟨rfl, rfl, rfl, rfl, rfl, rfl, rfl, rfl, rfl, rfl, rfl⟩
    · exact ⟨rfl, rfl, rfl, rfl, rfl, rfl, rfl, rfl, rfl, rfl, rfl⟩
  · exact ⟨rfl, rfl, rfl, rfl, rfl, rfl, rfl, rfl, rfl, rfl, rfl⟩

lemma isNeg_false_iff (e : UvcError) : e.isNeg = false ↔ e = .success := by
  cases e <;> simp [UvcError.isNeg]

/-- Success of `uvc_duplicate_frame` forces success of the size check. -/
lemma dup_success_ensure (allocOk : Bool) (inf out : UvcFrame)
    (hsucc : (uvc_duplicate_frame allocOk inf out).1 = .success) :
    (uvc_ensure_frame_size allocOk out inf.data_bytes).1 = .success := by
  by_cases hne : (uvc_ensure_frame_size allocOk out inf.data_bytes).1.isNeg = true
  · rw [dup_fail allocOk inf out hne] at hsucc
    simp at hsucc
  · simp only [Bool.not_eq_true] at hne
    exact (isNeg_false_iff _).mp hne

/-- Claim C4: a successful `uvc_duplicate_frame` into an owning destination
copies `data_bytes`, the data bytes `[0, data_bytes)`, the frame format and
the `width`, `height`, `step`, `sequence`, `capture_time`,
`capture_time_finished` and `source` fields verbatim from the source frame.
The source frame is a read-only input of the embedding, so it is not
modified by construction.  `dataConsistent` states that the destination's
`data_bytes` field truthfully describes its buffer capacity, which the C
code assumes of every frame. -/
theorem claim_C4_duplicate_roundtrip (allocOk : Bool) (inf out : UvcFrame)
    (howns : out.library_owns_data = true)
    (hcons : dataConsistent out)
    (hsucc : (uvc_duplicate_frame allocOk inf out).1 = .success) :
    (uvc_duplicate_frame allocOk inf out).2.1.data_bytes = inf.data_bytes ∧
    (∀ i, i < inf.data_bytes →
      readByte (frameBytes (uvc_duplicate_frame allocOk inf out).2.1) i =
        readByte (frameBytes inf) i) ∧
    (uvc_duplicate_frame allocOk inf out).2.1.frame_format = inf.frame_format ∧
    (uvc_duplicate_frame allocOk inf out).2.1.width = inf.width ∧
    (uvc_duplicate_frame allocOk inf out).2.1.height = inf.height ∧
    (uvc_duplicate_frame allocOk inf out).2.1.step = inf.step ∧
    (uvc_duplicate_frame allocOk inf out).2.1.sequence = inf.sequence ∧
    (uvc_duplicate_frame allocOk inf out).2.1.capture_time = inf.capture_time ∧
    (uvc_duplicate_frame allocOk inf out).2.1.capture_time_finished = inf.capture_time_finished ∧
    (uvc_duplicate_frame allocOk inf out).2.1.source = inf.source := by
  have hens := dup_success_ensure allocOk inf out hsucc
  have hnn : (uvc_ensure_frame_size allocOk out inf.data_bytes).1.isNeg = false := by
    rw [hens]
    rfl
  obtain ⟨hc1, hdata, hdb, hw, hh, hf, hst, hsq, hct, hctf, hsrc⟩ :=
    dup_success_core allocOk inf out hnn
  obtain ⟨hedb, _, hecons⟩ := ensure_owns_success allocOk out inf.data_bytes howns hens
  have hlen : (frameBytes (uvc_ensure_frame_size allocOk out inf.data_bytes).2.1).length =
      inf.data_bytes := by
    have := hecons hcons
    unfold dataConsistent at this
    rw [this, hedb]
  have hwb : writeBytes (frameBytes (uvc_ensure_frame_size allocOk out inf.data_bytes).2.1)
      (copyFrom (frameBytes inf) inf.data_bytes) = copyFrom (frameBytes inf) inf.data_bytes :=
    writeBytes_exact _ _ (by rw [hlen, copyFrom_length])
  refine ⟨by rw [hdb, hedb], ?_, hf, hw, hh, hst, hsq, hct, hctf, hsrc⟩
  intro i hi
  have hfb : frameBytes (uvc_duplicate_frame allocOk inf out).2.1 =
      copyFrom (frameBytes inf) inf.data_bytes := by
    unfold frameBytes
    rw [hdata, hwb]
    rfl
  rw [hfb]
  exact copyFrom_read _ _ _ hi

/-- Witness for claim C4: duplicating a concrete 3-byte owning frame into a
fresh owning destination copies bytes and fields. -/
theorem claim_C4_witness :
    let inf : UvcFrame :=
      { data := some [10, 20, 30], data_bytes := 3, width := 1, height := 1,
        frame_format := .rgb, step := 3, sequence := 7, capture_time := 11,
        capture_time_finished := 13, source := 5, library_owns_data := true,
        metadata := none, metadata_bytes := 0 }
    let out : UvcFrame :=
      { data := none, data_bytes := 0, width := 0, height := 0,
        frame_format := .unknown, step := 0, sequence := 0, capture_time := 0,
        capture_time_finished := 0, source := 0, library_owns_data := true,
        metadata := none, metadata_bytes := 0 }
    (uvc_duplicate_frame true inf out).2.1.data_bytes = inf.data_bytes ∧
    (readByte (frameBytes (uvc_duplicate_frame true inf out).2.1) 0 =
       readByte (frameBytes inf) 0 ∧
     readByte (frameBytes (uvc_duplicate_frame true inf out).2.1) 1 =
       readByte (frameBytes inf) 1 ∧
     readByte (frameBytes (uvc_duplicate_frame true inf out).2.1) 2 =
       readByte (frameBytes inf) 2) ∧
    (uvc_duplicate_frame true inf out).2.1.frame_format = inf.frame_format ∧
    (uvc_duplicate_frame true inf out).2.1.width = inf.width ∧
    (uvc_duplicate_frame true inf out).2.1.height = inf.height ∧
    (uvc_duplicate_frame true inf out).2.1.step = inf.step ∧
    (uvc_duplicate_frame true inf out).2.1.sequence = inf.sequence ∧
    (uvc_duplicate_frame true inf out).2.1.capture_time = inf.capture_time ∧
    (uvc_duplicate_frame true inf out).2.1.capture_time_finished = inf.capture_time_finished ∧
    (uvc_duplicate_frame true inf out).2.1.source = inf.source := by
  intro inf out
  obtain ⟨h1, h2, h3⟩ :=
    claim_C4_duplicate_roundtrip true inf out (by decide) (by decide) (by decide)
  exact ⟨h1, ⟨h2 0 (by decide), h2 1 (by decide), h2 2 (by decide)⟩, h3⟩

/-- Metadata stage of `uvc_duplicate_frame` when the source carries no
metadata: the destination's metadata fields are untouched and no metadata
allocation happens (this also covers the failure path, where the metadata
stage never runs). -/
lemma dup_meta_none (allocOk : Bool) (inf out : UvcFrame)
    (habs : inf.metadata = none ∨ inf.metadata_bytes = 0) :
    (uvc_duplicate_frame allocOk inf out).2.1.metadata = out.metadata ∧
    (uvc_duplicate_frame allocOk inf out).2.1.metadata_bytes = out.metadata_bytes ∧
    (uvc_duplicate_frame allocOk inf out).2.2.2 = 0 := by
  obtain ⟨-, -, -, -, -, -, -, -, -, hm, hmb⟩ :=
    ensure_preserves allocOk out inf.data_bytes
  by_cases hne : (uvc_ensure_frame_size allocOk out inf.data_bytes).1.isNeg = true
  · rw [dup_fail allocOk inf out hne]
    exact ⟨hm, hmb, rfl⟩
  · unfold uvc_duplicate_frame
    dsimp only
    rw [if_neg hne]
    rcases hmd : inf.metadata with _ | m
    · exact ⟨hm, hmb, rfl⟩
    · rcases habs with h | h
      · rw [hmd] at h; cases h
      · dsimp only
        rw [if_neg (by omega)]
        exact ⟨hm, hmb, rfl⟩

/-- Metadata stage of `uvc_duplicate_frame` on the success path when the
source does carry metadata: the old metadata buffer is reallocated exactly
when its capacity field is smaller than needed, the size field is set to the
source's, and the bytes are copied. -/
lemma dup_meta_some (allocOk : Bool) (inf out : UvcFrame) (m : List Nat)
    (hnn : (uvc_ensure_frame_size allocOk out inf.data_bytes).1.isNeg = false)
    (hmd : inf.metadata = some m)
    (hpos : 0 < inf.metadata_bytes) :
    (uvc_duplicate_frame allocOk inf out).2.1.metadata =
      some (writeBytes
        (if out.metadata_bytes < inf.metadata_bytes then
          reallocBuf out.metadata inf.metadata_bytes
         else frameMeta out)
        (copyFrom m inf.metadata_bytes)) ∧
    (uvc_duplicate_frame allocOk inf out).2.1.metadata_bytes = inf.metadata_bytes ∧
    (uvc_duplicate_frame allocOk inf out).2.2.2 =
      (if out.metadata_bytes < inf.metadata_bytes then 1 else 0) := by
  obtain ⟨-, -, -, -, -, -, -, -, -, hm, hmb⟩ :=
    ensure_preserves allocOk out inf.data_bytes
  unfold uvc_duplicate_frame
  dsimp only
  rw [if_neg (by simp [hnn]), hmd]
  dsimp only
  rw [if_pos hpos]
  dsimp only [frameMeta]
  rw [hm, hmb]
  exact ⟨rfl, rfl, rfl⟩

/-- Claim C9: `uvc_duplicate_frame` touches the destination's metadata only
when the source actually carries metadata.  When `src.metadata` is absent or
`src.metadata_bytes = 0` the destination's metadata pointer, size field and
allocation count are untouched; when metadata is present, the buffer is
reallocated exactly when the destination's capacity is smaller than needed
(a larger capacity is kept), the size field is set to the source's and the
bytes are copied. -/
theorem claim_C9_duplicate_metadata (allocOk : Bool) (inf out : UvcFrame) :
    ((inf.metadata = none ∨ inf.metadata_bytes = 0) →
      (uvc_duplicate_frame allocOk inf out).2.1.metadata = out.metadata ∧
      (uvc_duplicate_frame allocOk inf out).2.1.metadata_bytes = out.metadata_bytes ∧
      (uvc_duplicate_frame allocOk inf out).2.2.2 = 0) ∧
    (∀ m, inf.metadata = some m → 0 < inf.metadata_bytes →
      (uvc_duplicate_frame allocOk inf out).1 = .success → metaConsistent out →
      (uvc_duplicate_frame allocOk inf out).2.1.metadata_bytes = inf.metadata_bytes ∧
      ((uvc_duplicate_frame allocOk inf out).2.2.2 =
        if out.metadata_bytes < inf.metadata_bytes then 1 else 0) ∧
      (frameMeta (uvc_duplicate_frame allocOk inf out).2.1).length =
        max out.metadata_bytes inf.metadata_bytes ∧
      (∀ i, i < inf.metadata_bytes →
        readByte (frameMeta (uvc_duplicate_frame allocOk inf out).2.1) i = readByte m i)) := by
  constructor
  · exact dup_meta_none allocOk inf out
  · intro m hmd hpos hsucc hmc
    have hens := dup_success_ensure allocOk inf out hsucc
    have hnn : (uvc_ensure_frame_size allocOk out inf.data_bytes).1.isNeg = false := by
      rw [hens]; rfl
    obtain ⟨hmeta, hmbytes, hcnt⟩ := dup_meta_some allocOk inf out m hnn hmd hpos
    have hmetaOld_len :
        (if out.metadata_bytes < inf.metadata_bytes then
          reallocBuf out.metadata inf.metadata_bytes
         else frameMeta out).length = max out.metadata_bytes inf.metadata_bytes := by
      split
      · unfold reallocBuf frameMeta at *
        rw [List.length_append, List.length_take, List.length_replicate]
        unfold metaConsistent frameMeta at hmc
        omega
      · unfold metaConsistent at hmc
        omega
    have hfm : frameMeta (uvc_duplicate_frame allocOk inf out).2.1 =
        writeBytes
          (if out.metadata_bytes < inf.metadata_bytes then
            reallocBuf out.metadata inf.metadata_bytes
           else frameMeta out)
          (copyFrom m inf.metadata_bytes) := by
      unfold frameMeta
      rw [hmeta]
      rfl
    refine ⟨hmbytes, hcnt, ?_, ?_⟩
    · rw [hfm, writeBytes_length, hmetaOld_len]
    · intro i hi
      rw [hfm, readByte_writeBytes]
      · exact copyFrom_read m inf.metadata_bytes i hi
      · rw [copyFrom_length]; exact hi
      · rw [hmetaOld_len]; omega

/-- Witness for claim C9: a concrete duplication where the source carries 2
metadata bytes and the destination already has capacity 4; the capacity is
kept, no metadata reallocation happens and the bytes are copied. -/
theorem claim_C9_witness :
    let inf : UvcFrame :=
      { data := some [1], data_bytes := 1, width := 1, height := 1,
        frame_format := .rgb, step := 1, sequence := 0, capture_time := 0,
        capture_time_finished := 0, source := 0, library_owns_data := true,
        metadata := some [8, 9], metadata_bytes := 2 }
    let out : UvcFrame :=
      { data := none, data_bytes := 0, width := 0, height := 0,
        frame_format := .unknown, step := 0, sequence := 0, capture_time := 0,
        capture_time_finished := 0, source := 0, library_owns_data := true,
        metadata := some [0, 0, 0, 0], metadata_bytes := 4 }
    (uvc_duplicate_frame true inf out).2.1.metadata_bytes = inf.metadata_bytes ∧
    ((uvc_duplicate_frame true inf out).2.2.2 =
      if out.metadata_bytes < inf.metadata_bytes then 1 else 0) ∧
    (frameMeta (uvc_duplicate_frame true inf out).2.1).length =
      max out.metadata_bytes inf.metadata_bytes ∧
    (readByte (frameMeta (uvc_duplicate_frame true inf out).2.1) 0 = readByte [8, 9] 0 ∧
     readByte (frameMeta (uvc_duplicate_frame true inf out).2.1) 1 = readByte [8, 9] 1) := by
  intro inf out
  obtain ⟨h1, h2, h3, h4⟩ :=
    (claim_C9_duplicate_metadata true inf out).2 [8, 9] (by decide) (by decide) (by decide)
      (by decide)
  exact ⟨h1, h2, h3, h4 0 (by decide), h4 1 (by decide)⟩

/-- Embedding of the saturating clamp `sat` (frame.c lines 72-74): values at
or above 255 become 255, values below 0 become 0. -/
def sat (i : Int) : Nat :=
  if 255 ≤ i then 255 else if i < 0 then 0 else i.toNat

lemma sat_le_255 (i : Int) : sat i ≤ 255 := by
  unfold sat
  split
  · exact le_refl 255
  · split
    · omega
    · omega

/-- One 2-pixel group of the integer YUYV→RGB kernel (`IYUYV2RGB_2`,
frame.c lines 121-131), taking the 4 source bytes `[Y0, U, Y1, V]` and
producing the 6 destination bytes `[R0, G0, B0, R1, G1, B1]`.  The C
expression `x >> 14` is an arithmetic right shift of a signed `int`, i.e.
floor division by 2^14 = 16384, written `Int.fdiv`. -/
def iyuyv2rgb_2 (y0 u y1 v : Nat) : List Nat :=
  let r : Int := Int.fdiv (22987 * ((v : Int) - 128)) 16384
  let g : Int := Int.fdiv ((-5636) * ((u : Int) - 128) - 11698 * ((v : Int) - 128)) 16384
  let b : Int := Int.fdiv (29049 * ((u : Int) - 128)) 16384
  [sat ((y0 : Int) + r), sat ((y0 : Int) + g), sat ((y0 : Int) + b),
   sat ((y1 : Int) + r), sat ((y1 : Int) + g), sat ((y1 : Int) + b)]

/-- One 2-pixel group of the integer UYVY→RGB kernel (`IUYVY2RGB_2`,
frame.c lines 386-396); the 4 source bytes are `[U, Y0, V, Y1]`. -/
def iuyvy2rgb_2 (u y0 v y1 : Nat) : List Nat :=
  let r : Int := Int.fdiv (22987 * ((v : Int) - 128)) 16384
  let g : Int := Int.fdiv ((-5636) * ((u : Int) - 128) - 11698 * ((v : Int) - 128)) 16384
  let b : Int := Int.fdiv (29049 * ((u : Int) - 128)) 16384
  [sat ((y0 : Int) + r), sat ((y0 : Int) + g), sat ((y0 : Int) + b),
   sat ((y1 : Int) + r), sat ((y1 : Int) + g), sat ((y1 : Int) + b)]

/-- One 2-pixel group of the integer UYVY→BGR kernel (`IUYVY2BGR_2`,
frame.c lines 436-446): same math, B and R swapped in the output order. -/
def iuyvy2bgr_2 (u y0 v y1 : Nat) : List Nat :=
  let r : Int := Int.fdiv (22987 * ((v : Int) - 128)) 16384
  let g : Int := Int.fdiv ((-5636) * ((u : Int) - 128) - 11698 * ((v : Int) - 128)) 16384
  let b : Int := Int.fdiv (29049 * ((u : Int) - 128)) 16384
  [sat ((y0 : Int) + b), sat ((y0 : Int) + g), sat ((y0 : Int) + r),
   sat ((y1 : Int) + b), sat ((y1 : Int) + g), sat ((y1 : Int) + r)]

/-- Application of a 2-pixel group kernel to the 4 source bytes at offset
`p`. -/
def group_at (g2 : Nat → Nat → Nat → Nat → List Nat) (src : List Nat) (p : Nat) :
    List Nat :=
  g2 (readByte src p) (readByte src (p + 1)) (readByte src (p + 2)) (readByte src (p + 3))

/-- One 8-pixel macro block (`IYUYV2RGB_8` = `IYUYV2RGB_4` twice =
`IYUYV2RGB_2` four times, likewise for the UYVY and BGR variants): four
consecutive 2-pixel groups, consuming 16 source bytes and producing 24
destination bytes. -/
def block_8 (g2 : Nat → Nat → Nat → Nat → List Nat) (src : List Nat) (p : Nat) :
    List Nat :=
  group_at g2 src p ++ group_at g2 src (p + 4) ++
    group_at g2 src (p + 8) ++ group_at g2 src (p + 12)

/-- The `while (prgb < prgb_end)` loop shared by the interleaved-to-RGB/BGR
kernels, producing the stream of bytes written: each iteration emits one
8-pixel block and advances the source pointer by 16 and the destination
pointer by 24 bytes.  The recursion is on an explicit fuel so that the
definition is structural; every kernel calls it with fuel `prgb_end`, which
bounds the iteration count because the destination pointer grows by 24 each
step. -/
def convLoop (g2 : Nat → Nat → Nat → Nat → List Nat) (src : List Nat) :
    Nat → Nat → Nat → Nat → List Nat
  | 0, _, _, _ => []
  | fuel + 1, pyuv, prgb, prgb_end =>
    if prgb < prgb_end then
      block_8 g2 src pyuv ++ convLoop g2 src fuel (pyuv + 16) (prgb + 24) prgb_end
    else []

/-- The `while (py < py_end)` loop of the GRAY8 extraction kernels
(`IYUYV2Y` at frame.c lines 306-308 reads source offset 0 of each 2-byte
unit, `IYUYV2UV` at lines 346-348 reads offset 1): one destination byte per
iteration, the source pointer advancing by 2. -/
def planeLoop (off : Nat) (src : List Nat) :
    Nat → Nat → Nat → Nat → List Nat
  | 0, _, _, _ => []
  | fuel + 1, pyuv, py, py_end =>
    if py < py_end then
      readByte src (pyuv + off) :: planeLoop off src fuel (pyuv + 2) (py + 1) py_end
    else []

/-- Embedding of `uvc_yuyv2rgb` (frame.c lines 142-170). -/
def uvc_yuyv2rgb (allocOk : Bool) (inf out : UvcFrame) : UvcError × UvcFrame × Nat :=
  if inf.frame_format ≠ .yuyv then (.invalidParam, out, 0)
  else
    let e := uvc_ensure_frame_size allocOk out (inf.width * inf.height * 3)
    if e.1.isNeg then (.noMem, e.2.1, e.2.2)
    else
      let out1 := e.2.1
      let written := convLoop iyuyv2rgb_2 (frameBytes inf) out1.data_bytes 0 0 out1.data_bytes
      (.success,
       { out1 with
           width := inf.width, height := inf.height, frame_format := .rgb,
           step := inf.width * 3, sequence := inf.sequence,
           capture_time := inf.capture_time,
           capture_time_finished := inf.capture_time_finished,
           source := inf.source,
           data := some (writeBytes (frameBytes out1) written) },
       e.2.2)

/-- Embedding of the active `uvc_yuyv2bgr` (frame.c lines 240-303): the
format check, size check and field copies are performed, but the entire
pixel-conversion loop is commented out in the source, so no data byte is
written (the computed `total_pixels`/`num_blocks`/`remaining_pixels` values
at lines 278-280 are dead). -/
def uvc_yuyv2bgr (allocOk : Bool) (inf out : UvcFrame) : UvcError × UvcFrame × Nat :=
  if inf.frame_format ≠ .yuyv then (.invalidParam, out, 0)
  else
    let e := uvc_ensure_frame_size allocOk out (inf.width * inf.height * 3)
    if e.1.isNeg then (.noMem, e.2.1, e.2.2)
    else
      (.success,
       { e.2.1 with
           width := inf.width, height := inf.height, frame_format := .bgr,
           step := inf.width * 3, sequence := inf.sequence,
           capture_time := inf.capture_time,
           capture_time_finished := inf.capture_time_finished,
           source := inf.source },
       e.2.2)

/-- Embedding of `uvc_yuyv2y` (frame.c lines 316-344). -/
def uvc_yuyv2y (allocOk : Bool) (inf out : UvcFrame) : UvcError × UvcFrame × Nat :=
  if inf.frame_format ≠ .yuyv then (.invalidParam, out, 0)
  else
    let e := uvc_ensure_frame_size allocOk out (inf.width * inf.height)
    if e.1.isNeg then (.noMem, e.2.1, e.2.2)
    else
      let out1 := e.2.1
      let written := planeLoop 0 (frameBytes inf) out1.data_bytes 0 0 out1.data_bytes
      (.success,
       { out1 with
           width := inf.width, height := inf.height, frame_format := .gray8,
           step := inf.width, sequence := inf.sequence,
           capture_time := inf.capture_time,
           capture_time_finished := inf.capture_time_finished,
           source := inf.source,
           data := some (writeBytes (frameBytes out1) written) },
       e.2.2)

/-- Embedding of `uvc_yuyv2uv` (frame.c lines 356-384). -/
def uvc_yuyv2uv (allocOk : Bool) (inf out : UvcFrame) : UvcError × UvcFrame × Nat :=
  if inf.frame_format ≠ .yuyv then (.invalidParam, out, 0)
  else
    let e := uvc_ensure_frame_size allocOk out (inf.width * inf.height)
    if e.1.isNeg then (.noMem, e.2.1, e.2.2)
    else
      let out1 := e.2.1
      let written := planeLoop 1 (frameBytes inf) out1.data_bytes 0 0 out1.data_bytes
      (.success,
       { out1 with
           width := inf.width, height := inf.height, frame_format := .gray8,
           step := inf.width, sequence := inf.sequence,
           capture_time := inf.capture_time,
           capture_time_finished := inf.capture_time_finished,
           source := inf.source,
           data := some (writeBytes (frameBytes out1) written) },
       e.2.2)

/-- Embedding of `uvc_uyvy2rgb` (frame.c lines 406-434). -/
def uvc_uyvy2rgb (allocOk : Bool) (inf out : UvcFrame) : UvcError × UvcFrame × Nat :=
  if inf.frame_format ≠ .uyvy then (.invalidParam, out, 0)
  else
    let e := uvc_ensure_frame_size allocOk out (inf.width * inf.height * 3)
    if e.1.isNeg then (.noMem, e.2.1, e.2.2)
    else
      let out1 := e.2.1
      let written := convLoop iuyvy2rgb_2 (frameBytes inf) out1.data_bytes 0 0 out1.data_bytes
      (.success,
       { out1 with
           width := inf.width, height := inf.height, frame_format := .rgb,
           step := inf.width * 3, sequence := inf.sequence,
           capture_time := inf.capture_time,
           capture_time_finished := inf.capture_time_finished,
           source := inf.source,
           data := some (writeBytes (frameBytes out1) written) },
       e.2.2)

/-- Embedding of `uvc_uyvy2bgr` (frame.c lines 456-484). -/
def uvc_uyvy2bgr (allocOk : Bool) (inf out : UvcFrame) : UvcError × UvcFrame × Nat :=
  if inf.frame_format ≠ .uyvy then (.invalidParam, out, 0)
  else
    let e := uvc_ensure_frame_size allocOk out (inf.width * inf.height * 3)
    if e.1.isNeg then (.noMem, e.2.1, e.2.2)
    else
      let out1 := e.2.1
      let written := convLoop iuyvy2bgr_2 (frameBytes inf) out1.data_bytes 0 0 out1.data_bytes
      (.success,
       { out1 with
           width := inf.width, height := inf.height, frame_format := .bgr,
           step := inf.width * 3, sequence := inf.sequence,
           capture_time := inf.capture_time,
           capture_time_finished := inf.capture_time_finished,
           source := inf.source,
           data := some (writeBytes (frameBytes out1) written) },
       e.2.2)

/-- Claim C7: every conversion kernel checks the source frame format first;
on a mismatch it returns InvalidFormat immediately, with the destination
frame returned completely unchanged and no allocation performed (the
allocation count is 0, showing `uvc_ensure_frame_size` was never reached). -/
theorem claim_C7_format_mismatch (allocOk : Bool) (inf out : UvcFrame) :
    (inf.frame_format ≠ .yuyv →
      uvc_yuyv2rgb allocOk inf out = (.invalidParam, out, 0) ∧
      uvc_yuyv2bgr allocOk inf out = (.invalidParam, out, 0) ∧
      uvc_yuyv2y allocOk inf out = (.invalidParam, out, 0) ∧
      uvc_yuyv2uv allocOk inf out = (.invalidParam, out, 0)) ∧
    (inf.frame_format ≠ .uyvy →
      uvc_uyvy2rgb allocOk inf out = (.invalidParam, out, 0) ∧
      uvc_uyvy2bgr allocOk inf out = (.invalidParam, out, 0)) := by
  constructor
  · intro h
    refine ⟨?_, ?_, ?_, ?_⟩
    · unfold uvc_yuyv2rgb; rw [if_pos h]
    · unfold uvc_yuyv2bgr; rw [if_pos h]
    · unfold uvc_yuyv2y; rw [if_pos h]
    · unfold uvc_yuyv2uv; rw [if_pos h]
  · intro h
    constructor
    · unfold uvc_uyvy2rgb; rw [if_pos h]
    · unfold uvc_uyvy2bgr; rw [if_pos h]

/-- Witness for claim C7: a BGR-tagged source frame is rejected by the YUYV
kernels and an RGB-tagged one by the UYVY kernels, the destination staying
untouched. -/
theorem claim_C7_witness :
    let inf : UvcFrame :=
      { data := some [1, 2, 3], data_bytes := 3, width := 1, height := 1,
        frame_format := .bgr, step := 3, sequence := 0, capture_time := 0,
        capture_time_finished := 0, source := 0, library_owns_data := true,
        metadata := none, metadata_bytes := 0 }
    let out : UvcFrame :=
      { data := none, data_bytes := 0, width := 0, height := 0,
        frame_format := .unknown, step := 0, sequence := 0, capture_time := 0,
        capture_time_finished := 0, source := 0, library_owns_data := true,
        metadata := none, metadata_bytes := 0 }
    (uvc_yuyv2rgb true inf out = (.invalidParam, out, 0) ∧
     uvc_yuyv2bgr true inf out = (.invalidParam, out, 0) ∧
     uvc_yuyv2y true inf out = (.invalidParam, out, 0) ∧
     uvc_yuyv2uv true inf out = (.invalidParam, out, 0)) ∧
    (uvc_uyvy2rgb true inf out = (.invalidParam, out, 0) ∧
     uvc_uyvy2bgr true inf out = (.invalidParam, out, 0)) :=
  ⟨(claim_C7_format_mismatch true _ _).1 (by decide),
   (claim_C7_format_mismatch true _ _).2 (by decide)⟩

/-- Claim C3: a borrowed frame (`library_owns_data = false`) whose
`data_bytes` is strictly below the requested size makes
`uvc_ensure_frame_size` fail with OutOfMemory while leaving the frame — 
pointer, size field and buffer contents — completely unchanged, and a
conversion (here YUYV→RGB) requesting that capacity fails the same way with
the borrowed destination unchanged. -/
theorem claim_C3_borrowed_too_small (allocOk : Bool) (f : UvcFrame)
    (howns : f.library_owns_data = false) :
    (∀ n, f.data_bytes < n → uvc_ensure_frame_size allocOk f n = (.noMem, f, 0)) ∧
    (∀ inf : UvcFrame, inf.frame_format = .yuyv →
      f.data_bytes < inf.width * inf.height * 3 →
      uvc_yuyv2rgb allocOk inf f = (.noMem, f, 0)) ∧
    (∀ n, (uvc_ensure_frame_size allocOk f n).2.1 = f) := by
  have hens : ∀ n, f.data_bytes < n → uvc_ensure_frame_size allocOk f n = (.noMem, f, 0) := by
    intro n hlt
    rw [ensure_eq_borrowed allocOk f n howns, if_pos (Or.inr hlt)]
  refine ⟨hens, ?_, ?_⟩
  · intro inf hfmt hlt
    unfold uvc_yuyv2rgb
    rw [if_neg (by simp [hfmt])]
    dsimp only
    rw [hens (inf.width * inf.height * 3) hlt]
    rfl
  · intro n
    rw [ensure_eq_borrowed allocOk f n howns]
    by_cases hcond : f.data = none ∨ f.data_bytes < n
    · rw [if_pos hcond]
    · rw [if_neg hcond]

/-- Witness for claim C3: the spec's concrete scenario — a borrowed 100-byte
destination rejects a 101-byte request, and rejects a YUYV→RGB conversion of
a 6×6 frame (108 bytes needed), staying unchanged. -/
theorem claim_C3_witness :
    let f : UvcFrame :=
      { data := some (List.replicate 100 7), data_bytes := 100, width := 0, height := 0,
        frame_format := .rgb, step := 0, sequence := 0, capture_time := 0,
        capture_time_finished := 0, source := 0, library_owns_data := false,
        metadata := none, metadata_bytes := 0 }
    let inf : UvcFrame :=
      { data := some (List.replicate 72 0), data_bytes := 72, width := 6, height := 6,
        frame_format := .yuyv, step := 12, sequence := 0, capture_time := 0,
        capture_time_finished := 0, source := 0, library_owns_data := true,
        metadata := none, metadata_bytes := 0 }
    uvc_ensure_frame_size true f 101 = (.noMem, f, 0) ∧
    uvc_yuyv2rgb true inf f = (.noMem, f, 0) :=
  ⟨(claim_C3_borrowed_too_small true _ (by decide)).1 101 (by decide),
   (claim_C3_borrowed_too_small true _ (by decide)).2.1 _ (by decide) (by decide)⟩

/-- Claim C6: converting the concrete 4×1 YUYV frame with bytes
`[235,128,235,128,235,128,235,128]` (two identical achromatic pixel pairs,
Y = 235, U = V = 128) through `uvc_yuyv2rgb` succeeds and yields exactly
four RGB pixels `(235,235,235)`: with U = V = 128 the chroma terms r, g, b
are all zero and every channel is `sat (235 + 0) = 235`. -/
theorem claim_C6_achromatic_gray :
    let inf : UvcFrame :=
      { data := some [235, 128, 235, 128, 235, 128, 235, 128], data_bytes := 8,
        width := 4, height := 1, frame_format := .yuyv, step := 8, sequence := 1,
        capture_time := 2, capture_time_finished := 3, source := 4,
        library_owns_data := false, metadata := none, metadata_bytes := 0 }
    let out : UvcFrame :=
      { data := none, data_bytes := 0, width := 0, height := 0,
        frame_format := .unknown, step := 0, sequence := 0, capture_time := 0,
        capture_time_finished := 0, source := 0, library_owns_data := true,
        metadata := none, metadata_bytes := 0 }
    (uvc_yuyv2rgb true inf out).1 = .success ∧
    (uvc_yuyv2rgb true inf out).2.1.data_bytes = 12 ∧
    (uvc_yuyv2rgb true inf out).2.1.data = some (List.replicate 12 235) ∧
    (uvc_yuyv2rgb true inf out).2.1.frame_format = .rgb ∧
    (uvc_yuyv2rgb true inf out).2.1.width = 4 ∧
    (uvc_yuyv2rgb true inf out).2.1.height = 1 := by
  decide

/-- Claim C8: `uvc_ensure_frame_size` is idempotent on owning frames — after
a successful call with `need_bytes = n`, a second call with the same `n`
succeeds, performs no reallocation (allocation count 0) and returns exactly
the frame left by the first call, because the owning branch reallocates only
when the buffer is absent or `data_bytes` differs from `n`. -/
theorem claim_C8_ensure_idempotent (ok ok2 : Bool) (f : UvcFrame) (n : Nat)
    (howns : f.library_owns_data = true)
    (hsucc : (uvc_ensure_frame_size ok f n).1 = .success) :
    uvc_ensure_frame_size ok2 (uvc_ensure_frame_size ok f n).2.1 n =
      (.success, (uvc_ensure_frame_size ok f n).2.1, 0) := by
  obtain ⟨hdb, hsome, -⟩ := ensure_owns_success ok f n howns hsucc
  obtain ⟨-, -, -, -, -, -, -, -, howns2, -, -⟩ := ensure_preserves ok f n
  refine ensure_eq_owns_keep ok2 _ n (by rw [howns2]; exact howns) ?_
  rintro (h | h)
  · rw [h] at hsome
    simp at hsome
  · exact h hdb

/-- Witness for claim C8: growing a fresh owning frame to 5 bytes and asking
for 5 bytes again returns the same frame with no reallocation. -/
theorem claim_C8_witness :
    let f : UvcFrame :=
      { data := none, data_bytes := 0, width := 0, height := 0,
        frame_format := .unknown, step := 0, sequence := 0, capture_time := 0,
        capture_time_finished := 0, source := 0, library_owns_data := true,
        metadata := none, metadata_bytes := 0 }
    uvc_ensure_frame_size true (uvc_ensure_frame_size true f 5).2.1 5 =
      (.success, (uvc_ensure_frame_size true f 5).2.1, 0) :=
  claim_C8_ensure_idempotent true true _ 5 (by decide) (by decide)

/-- Blocks form of the conversion loop: `n` consecutive 8-pixel blocks
starting at source offset `p`. -/
def blocks (g2 : Nat → Nat → Nat → Nat → List Nat) (src : List Nat) (p : Nat) :
    Nat → List Nat
  | 0 => []
  | n + 1 => block_8 g2 src p ++ blocks g2 src (p + 16) n

/-- The fuelled while-loop equals the blocks form with the iteration count
`⌈(prgb_end - prgb) / 24⌉` forced by the loop guard, whenever the fuel
suffices. -/
lemma convLoop_eq_blocks (g2 : Nat → Nat → Nat → Nat → List Nat) (src : List Nat)
    (fuel : Nat) :
    ∀ pyuv prgb prgb_end, prgb_end - prgb ≤ 24 * fuel →
      convLoop g2 src fuel pyuv prgb prgb_end =
        blocks g2 src pyuv ((prgb_end - prgb + 23) / 24) := by
  induction fuel with
  | zero =>
    intro pyuv prgb prgb_end h
    have hm : prgb_end - prgb = 0 := by omega
    rw [hm]
    rfl
  | succ fuel ih =>
    intro pyuv prgb prgb_end h
    by_cases hlt : prgb < prgb_end
    · have hq : (prgb_end - prgb + 23) / 24 = (prgb_end - (prgb + 24) + 23) / 24 + 1 := by
        omega
      rw [hq]
      simp only [convLoop, if_pos hlt, blocks]
      rw [ih (pyuv + 16) (prgb + 24) prgb_end (by omega)]
    · have hm : prgb_end - prgb = 0 := by omega
      rw [hm]
      simp only [convLoop, if_neg hlt]
      rfl

/-- Length of the blocks form, given that the 2-pixel group kernel always
produces 6 bytes. -/
lemma blocks_length (g2 : Nat → Nat → Nat → Nat → List Nat) (src : List Nat)
    (hlen : ∀ a b c d, (g2 a b c d).length = 6) (n : Nat) :
    ∀ p, (blocks g2 src p n).length = 24 * n := by
  induction n with
  | zero => intro p; rfl
  | succ n ih =>
    intro p
    simp only [blocks, List.length_append, ih, block_8, group_at, hlen]
    omega

/-- The blocks form depends only on the source bytes in `[p, p + 16*n)`. -/
lemma blocks_agree (g2 : Nat → Nat → Nat → Nat → List Nat) (src1 src2 : List Nat)
    (n : Nat) :
    ∀ p, (∀ i, p ≤ i → i < p + 16 * n → readByte src1 i = readByte src2 i) →
      blocks g2 src1 p n = blocks g2 src2 p n := by
  induction n with
  | zero => intro p _; rfl
  | succ n ih =>
    intro p hag
    simp only [blocks]
    rw [ih (p + 16) (fun i h1 h2 => hag i (by omega) (by omega))]
    unfold block_8 group_at
    rw [hag p (by omega) (by omega), hag (p+1) (by omega) (by omega),
        hag (p+2) (by omega) (by omega), hag (p+3) (by omega) (by omega),
        hag (p+4) (by omega) (by omega), hag (p+5) (by omega) (by omega),
        hag (p+6) (by omega) (by omega), hag (p+7) (by omega) (by omega),
        hag (p+8) (by omega) (by omega), hag (p+9) (by omega) (by omega),
        hag (p+10) (by omega) (by omega), hag (p+11) (by omega) (by omega),
        hag (p+12) (by omega) (by omega), hag (p+13) (by omega) (by omega),
        hag (p+14) (by omega) (by omega), hag (p+15) (by omega) (by omega)]

/-- Flat group form of the blocks: `n` 2-pixel groups at source offsets
`p, p+4, p+8, …`. -/
def groupsOut (g2 : Nat → Nat → Nat → Nat → List Nat) (src : List Nat) (p n : Nat) :
    List Nat :=
  ((List.range n).map (fun g => group_at g2 src (p + 4 * g))).flatten

lemma blocks_eq_groupsOut (g2 : Nat → Nat → Nat → Nat → List Nat) (src : List Nat)
    (n : Nat) :
    ∀ p, blocks g2 src p n = groupsOut g2 src p (4 * n) := by
  induction n with
  | zero => intro p; rfl
  | succ n ih =>
    intro p
    have h4 : 4 * (n + 1) = 4 + 4 * n := by ring
    simp only [blocks, ih, groupsOut, h4, List.range_add, List.map_append,
      List.map_map, List.flatten_append]
    congr 1
    · rw [show List.range 4 = [0, 1, 2, 3] from rfl]
      simp [block_8]
    · congr 1
      apply List.map_congr_left
      intro a _
      simp only [Function.comp]
      rw [show p + 4 * (4 + a) = p + 16 + 4 * a by ring]

/-- Slice extraction from a flattening of constant-length-6 chunks. -/
lemma flatten_slice (L : List (List Nat)) :
    ∀ k, (∀ l ∈ L, l.length = 6) → k < L.length →
      ((L.flatten.drop (6 * k)).take 6) = L.getD k [] := by
  induction L with
  | nil => intro k _ hk; cases hk
  | cons a L ih =>
    intro k hlen hk
    cases k with
    | zero =>
      rw [List.flatten_cons, Nat.mul_zero, List.drop_zero]
      have ha : a.length = 6 := hlen a (List.mem_cons_self a L)
      rw [← ha, List.take_left]
      rfl
    | succ k =>
      rw [List.flatten_cons]
      have h6 : 6 * (k + 1) = a.length + 6 * k := by
        rw [hlen a (List.mem_cons_self a L)]; ring
      rw [h6, List.drop_append]
      exact ih k (fun l hl => hlen l (List.mem_cons_of_mem a hl)) (by simpa using hk)

/-- Slice extraction from the group form: the bytes `[6g, 6g+6)` of the
written stream are exactly the 2-pixel group of source offset `p + 4g`. -/
lemma groupsOut_slice (g2 : Nat → Nat → Nat → Nat → List Nat) (src : List Nat)
    (p n k : Nat) (hlen : ∀ a b c d, (g2 a b c d).length = 6) (hk : k < n) :
    (((groupsOut g2 src p n).drop (6 * k)).take 6) = group_at g2 src (p + 4 * k) := by
  unfold groupsOut
  rw [flatten_slice _ k ?hl (by simpa using hk)]
  · rw [List.getD_eq_getElem _ _ (by simpa using hk)]
    simp [group_at]
  case hl =>
    intro l hl
    simp only [List.mem_map] at hl
    obtain ⟨g, -, rfl⟩ := hl
    simp [group_at, hlen]

lemma iyuyv2rgb_2_length (a b c d : Nat) : (iyuyv2rgb_2 a b c d).length = 6 := rfl

lemma iuyvy2rgb_2_length (a b c d : Nat) : (iuyvy2rgb_2 a b c d).length = 6 := rfl

lemma iuyvy2bgr_2_length (a b c d : Nat) : (iuyvy2bgr_2 a b c d).length = 6 := rfl

lemma take_drop_take (X : List Nat) (d a b : Nat) (h : a + b <= d) :
    ((X.take d).drop a).take b = (X.drop a).take b := by
  rw [List.drop_take, List.take_take, min_eq_left (by omega)]

lemma drop_take_append (W t : List Nat) (a b : Nat) (h : a + b <= W.length) :
    ((W ++ t).drop a).take b = (W.drop a).take b := by
  rw [List.drop_append_of_le_length (by omega),
      List.take_append_of_le_length (by rw [List.length_drop]; omega)]

/-- On success, `uvc_ensure_frame_size` keeps the buffer/size consistency of
the frame it was given, for both owning and borrowed frames. -/
lemma ensure_success_consistent (allocOk : Bool) (f : UvcFrame) (n : Nat)
    (hcons : dataConsistent f)
    (hsucc : (uvc_ensure_frame_size allocOk f n).1 = .success) :
    dataConsistent (uvc_ensure_frame_size allocOk f n).2.1 := by
  by_cases howns : f.library_owns_data
  · exact (ensure_owns_success allocOk f n howns hsucc).2.2 hcons
  · simp only [Bool.not_eq_true] at howns
    rw [ensure_eq_borrowed allocOk f n howns] at hsucc ⊢
    by_cases hcond : f.data = none ∨ f.data_bytes < n
    · rw [if_pos hcond] at hsucc
      simp at hsucc
    · rw [if_neg hcond]
      exact hcons

/-- Success of `uvc_yuyv2rgb` forces the format check and the size check to
have passed. -/
lemma yuyv2rgb_success_inv (allocOk : Bool) (inf out : UvcFrame)
    (hsucc : (uvc_yuyv2rgb allocOk inf out).1 = .success) :
    inf.frame_format = .yuyv ∧
    (uvc_ensure_frame_size allocOk out (inf.width * inf.height * 3)).1 = .success := by
  by_cases hfmt : inf.frame_format ≠ .yuyv
  · unfold uvc_yuyv2rgb at hsucc
    rw [if_pos hfmt] at hsucc
    simp at hsucc
  · push_neg at hfmt
    refine ⟨hfmt, ?_⟩
    by_cases hne : (uvc_ensure_frame_size allocOk out (inf.width * inf.height * 3)).1.isNeg = true
    · unfold uvc_yuyv2rgb at hsucc
      rw [if_neg (by simp [hfmt])] at hsucc
      dsimp only at hsucc
      rw [if_pos hne] at hsucc
      simp at hsucc
    · simp only [Bool.not_eq_true] at hne
      exact (isNeg_false_iff _).mp hne

/-- Data components of a successful `uvc_yuyv2rgb`. -/
lemma yuyv2rgb_success_comps (allocOk : Bool) (inf out : UvcFrame)
    (hfmt : inf.frame_format = .yuyv)
    (hnn : (uvc_ensure_frame_size allocOk out (inf.width * inf.height * 3)).1.isNeg = false) :
    (uvc_yuyv2rgb allocOk inf out).2.1.data =
      some (writeBytes
        (frameBytes (uvc_ensure_frame_size allocOk out (inf.width * inf.height * 3)).2.1)
        (convLoop iyuyv2rgb_2 (frameBytes inf)
          (uvc_ensure_frame_size allocOk out (inf.width * inf.height * 3)).2.1.data_bytes 0 0
          (uvc_ensure_frame_size allocOk out (inf.width * inf.height * 3)).2.1.data_bytes)) ∧
    (uvc_yuyv2rgb allocOk inf out).2.1.data_bytes =
      (uvc_ensure_frame_size allocOk out (inf.width * inf.height * 3)).2.1.data_bytes := by
  unfold uvc_yuyv2rgb
  rw [if_neg (by simp [hfmt])]
  dsimp only
  rw [if_neg (by simp [hnn])]
  exact ⟨rfl, rfl⟩

lemma mem_iyuyv2rgb_2_le (a b c d x : Nat) (hx : x ∈ iyuyv2rgb_2 a b c d) : x ≤ 255 := by
  unfold iyuyv2rgb_2 at hx
  simp only [List.mem_cons, List.not_mem_nil, or_false] at hx
  rcases hx with h | h | h | h | h | h <;> (rw [h]; exact sat_le_255 _)

/-- Claim C1: for every 4-byte YUYV group `(Y0, U, Y1, V)` processed by
`uvc_yuyv2rgb` (group `g` reads source bytes `4g..4g+3` and writes
destination bytes `6g..6g+5`), the six destination bytes are the saturated
fixed-point values of the claim's formulas, computed in exact signed integer
arithmetic with arithmetic right shift (floor division by 16384), and every
output byte lies in `[0, 255]` — the clamp never wraps.  The hypotheses say
the conversion succeeded, the destination's size field was truthful, and
group `g` lies inside the destination buffer. -/
theorem claim_C1_yuyv2rgb_group_math (allocOk : Bool) (inf out : UvcFrame) (g : Nat)
    (hcons : dataConsistent out)
    (hsucc : (uvc_yuyv2rgb allocOk inf out).1 = .success)
    (hg : 6 * g + 6 ≤ (uvc_yuyv2rgb allocOk inf out).2.1.data_bytes) :
    (((frameBytes (uvc_yuyv2rgb allocOk inf out).2.1).drop (6 * g)).take 6 =
      iyuyv2rgb_2 (readByte (frameBytes inf) (4 * g)) (readByte (frameBytes inf) (4 * g + 1))
        (readByte (frameBytes inf) (4 * g + 2)) (readByte (frameBytes inf) (4 * g + 3))) ∧
    (∀ y0 u y1 v : Nat,
      iyuyv2rgb_2 y0 u y1 v =
        [sat ((y0 : Int) + (22987 * ((v : Int) - 128)).fdiv 16384),
         sat ((y0 : Int) + ((-5636) * ((u : Int) - 128) - 11698 * ((v : Int) - 128)).fdiv 16384),
         sat ((y0 : Int) + (29049 * ((u : Int) - 128)).fdiv 16384),
         sat ((y1 : Int) + (22987 * ((v : Int) - 128)).fdiv 16384),
         sat ((y1 : Int) + ((-5636) * ((u : Int) - 128) - 11698 * ((v : Int) - 128)).fdiv 16384),
         sat ((y1 : Int) + (29049 * ((u : Int) - 128)).fdiv 16384)]) ∧
    (∀ x ∈ ((frameBytes (uvc_yuyv2rgb allocOk inf out).2.1).drop (6 * g)).take 6, x ≤ 255) := by
  obtain ⟨hfmt, hens⟩ := yuyv2rgb_success_inv allocOk inf out hsucc
  have hnn : (uvc_ensure_frame_size allocOk out (inf.width * inf.height * 3)).1.isNeg = false := by
    rw [hens]; rfl
  obtain ⟨hdata, hdb⟩ := yuyv2rgb_success_comps allocOk inf out hfmt hnn
  have hlen : (frameBytes (uvc_ensure_frame_size allocOk out (inf.width * inf.height * 3)).2.1).length =
      (uvc_ensure_frame_size allocOk out (inf.width * inf.height * 3)).2.1.data_bytes :=
    ensure_success_consistent allocOk out (inf.width * inf.height * 3) hcons hens
  rw [hdb] at hg
  have hW : convLoop iyuyv2rgb_2 (frameBytes inf)
      (uvc_ensure_frame_size allocOk out (inf.width * inf.height * 3)).2.1.data_bytes 0 0
      (uvc_ensure_frame_size allocOk out (inf.width * inf.height * 3)).2.1.data_bytes =
      blocks iyuyv2rgb_2 (frameBytes inf) 0
        (((uvc_ensure_frame_size allocOk out (inf.width * inf.height * 3)).2.1.data_bytes + 23) / 24) := by
    rw [convLoop_eq_blocks _ _ _ 0 0 _ (by omega), Nat.sub_zero]
  have hWlen : (convLoop iyuyv2rgb_2 (frameBytes inf)
      (uvc_ensure_frame_size allocOk out (inf.width * inf.height * 3)).2.1.data_bytes 0 0
      (uvc_ensure_frame_size allocOk out (inf.width * inf.height * 3)).2.1.data_bytes).length =
      24 * (((uvc_ensure_frame_size allocOk out (inf.width * inf.height * 3)).2.1.data_bytes + 23) / 24) := by
    rw [hW]
    exact blocks_length _ _ iyuyv2rgb_2_length _ 0
  have hfb : frameBytes (uvc_yuyv2rgb allocOk inf out).2.1 =
      writeBytes (frameBytes (uvc_ensure_frame_size allocOk out (inf.width * inf.height * 3)).2.1)
        (convLoop iyuyv2rgb_2 (frameBytes inf)
          (uvc_ensure_frame_size allocOk out (inf.width * inf.height * 3)).2.1.data_bytes 0 0
          (uvc_ensure_frame_size allocOk out (inf.width * inf.height * 3)).2.1.data_bytes) := by
    unfold frameBytes
    rw [hdata]
    rfl
  have hslice : ((frameBytes (uvc_yuyv2rgb allocOk inf out).2.1).drop (6 * g)).take 6 =
      iyuyv2rgb_2 (readByte (frameBytes inf) (4 * g)) (readByte (frameBytes inf) (4 * g + 1))
        (readByte (frameBytes inf) (4 * g + 2)) (readByte (frameBytes inf) (4 * g + 3)) := by
    rw [hfb]
    unfold writeBytes
    rw [take_drop_take _ _ _ _ (by rw [hlen]; omega)]
    rw [drop_take_append _ _ _ _ (by rw [hWlen]; omega)]
    rw [hW, blocks_eq_groupsOut]
    rw [groupsOut_slice iyuyv2rgb_2 (frameBytes inf) 0 _ g iyuyv2rgb_2_length (by omega)]
    rw [show 0 + 4 * g = 4 * g by omega]
    rfl
  refine ⟨hslice, fun y0 u y1 v => rfl, ?_⟩
  intro x hx
  rw [hslice] at hx
  exact mem_iyuyv2rgb_2_le _ _ _ _ x hx

/-- Witness for claim C1 at the spec's extreme input `Y=255, U=255, V=0`: an
8×1 YUYV frame of four such groups converts successfully and group 0 of the
output matches the group formula, every byte clamped into range. -/
theorem claim_C1_witness :
    let inf : UvcFrame :=
      { data := some [255, 255, 255, 0, 255, 255, 255, 0,
                      255, 255, 255, 0, 255, 255, 255, 0], data_bytes := 16,
        width := 8, height := 1, frame_format := .yuyv, step := 16, sequence := 0,
        capture_time := 0, capture_time_finished := 0, source := 0,
        library_owns_data := false, metadata := none, metadata_bytes := 0 }
    let out : UvcFrame :=
      { data := none, data_bytes := 0, width := 0, height := 0,
        frame_format := .unknown, step := 0, sequence := 0, capture_time := 0,
        capture_time_finished := 0, source := 0, library_owns_data := true,
        metadata := none, metadata_bytes := 0 }
    dataConsistent out ∧
    (uvc_yuyv2rgb true inf out).1 = .success ∧
    6 * 0 + 6 ≤ (uvc_yuyv2rgb true inf out).2.1.data_bytes ∧
    ((frameBytes (uvc_yuyv2rgb true inf out).2.1).drop (6 * 0)).take 6 =
      iyuyv2rgb_2 (readByte (frameBytes inf) (4 * 0)) (readByte (frameBytes inf) (4 * 0 + 1))
        (readByte (frameBytes inf) (4 * 0 + 2)) (readByte (frameBytes inf) (4 * 0 + 3)) :=
  ⟨by decide, by decide, by decide,
   (claim_C1_yuyv2rgb_group_math true _ _ 0 (by decide) (by decide) (by decide)).1⟩

/-- Embedding of `uvc_any2rgb` (frame.c lines 492-507).  The
`#ifdef LIBUVC_HAS_JPEG` compile-time switch is the `hasJpeg` parameter, and
the external JPEG-decode collaborator `uvc_mjpeg2rgb` — not part of this
repository — is the function parameter `mjpeg2rgb`: when the flag is unset
the MJPEG case is not compiled and an MJPEG source falls through to the
`default` arm. -/
def uvc_any2rgb (hasJpeg : Bool)
    (mjpeg2rgb : UvcFrame → UvcFrame → UvcError × UvcFrame)
    (allocOk : Bool) (inf out : UvcFrame) : UvcError × UvcFrame :=
  if hasJpeg = true ∧ inf.frame_format = .mjpeg then mjpeg2rgb inf out
  else
    match inf.frame_format with
    | .yuyv => ((uvc_yuyv2rgb allocOk inf out).1, (uvc_yuyv2rgb allocOk inf out).2.1)
    | .uyvy => ((uvc_uyvy2rgb allocOk inf out).1, (uvc_uyvy2rgb allocOk inf out).2.1)
    | .rgb => ((uvc_duplicate_frame allocOk inf out).1, (uvc_duplicate_frame allocOk inf out).2.1)
    | _ => (.notSupported, out)

/-- Embedding of `uvc_any2bgr` (frame.c lines 515-526).  This switch has no
MJPEG case at all — not even under `LIBUVC_HAS_JPEG` — so the build flag
parameter is unused and an MJPEG source always falls through to `default`. -/
def uvc_any2bgr (hasJpeg : Bool) (allocOk : Bool) (inf out : UvcFrame) :
    UvcError × UvcFrame :=
  match inf.frame_format with
  | .yuyv => ((uvc_yuyv2bgr allocOk inf out).1, (uvc_yuyv2bgr allocOk inf out).2.1)
  | .uyvy => ((uvc_uyvy2bgr allocOk inf out).1, (uvc_uyvy2bgr allocOk inf out).2.1)
  | .bgr => ((uvc_duplicate_frame allocOk inf out).1, (uvc_duplicate_frame allocOk inf out).2.1)
  | _ => (.notSupported, out)

/-- Claim C5 as frozen is false on the code: it asserts for both routers
that an MJPEG source is convertible when the JPEG collaborator is linked in,
but the `uvc_any2bgr` switch has no MJPEG case even then and returns
NotSupported.  Concrete input: an MJPEG frame with `hasJpeg = true`. -/
theorem claim_C5_counterexample :
    let inf : UvcFrame :=
      { data := some [1, 2], data_bytes := 2, width := 1, height := 1,
        frame_format := .mjpeg, step := 0, sequence := 0, capture_time := 0,
        capture_time_finished := 0, source := 0, library_owns_data := true,
        metadata := none, metadata_bytes := 0 }
    let out : UvcFrame :=
      { data := none, data_bytes := 0, width := 0, height := 0,
        frame_format := .unknown, step := 0, sequence := 0, capture_time := 0,
        capture_time_finished := 0, source := 0, library_owns_data := true,
        metadata := none, metadata_bytes := 0 }
    uvc_any2bgr true true inf out = (.notSupported, out) := by
  decide

/-- Claim C5, amended: both routers dispatch solely on `src.frame_format` —
YUYV and UYVY go to the corresponding pixel kernel, a source already in the
router's target format is routed to `uvc_duplicate_frame`, every format with
no defined path returns NotSupported with the destination unchanged, and an
MJPEG source in `uvc_any2rgb` goes to the JPEG collaborator exactly when it
is linked in and is NotSupported otherwise, while `uvc_any2bgr` returns
NotSupported for MJPEG even when the collaborator is linked in. -/
theorem claim_C5_dispatch (hasJpeg allocOk : Bool)
    (mjpeg2rgb : UvcFrame → UvcFrame → UvcError × UvcFrame) (inf out : UvcFrame) :
    (inf.frame_format = .yuyv →
      uvc_any2rgb hasJpeg mjpeg2rgb allocOk inf out =
        ((uvc_yuyv2rgb allocOk inf out).1, (uvc_yuyv2rgb allocOk inf out).2.1) ∧
      uvc_any2bgr hasJpeg allocOk inf out =
        ((uvc_yuyv2bgr allocOk inf out).1, (uvc_yuyv2bgr allocOk inf out).2.1)) ∧
    (inf.frame_format = .uyvy →
      uvc_any2rgb hasJpeg mjpeg2rgb allocOk inf out =
        ((uvc_uyvy2rgb allocOk inf out).1, (uvc_uyvy2rgb allocOk inf out).2.1) ∧
      uvc_any2bgr hasJpeg allocOk inf out =
        ((uvc_uyvy2bgr allocOk inf out).1, (uvc_uyvy2bgr allocOk inf out).2.1)) ∧
    (inf.frame_format = .rgb →
      uvc_any2rgb hasJpeg mjpeg2rgb allocOk inf out =
        ((uvc_duplicate_frame allocOk inf out).1, (uvc_duplicate_frame allocOk inf out).2.1)) ∧
    (inf.frame_format = .bgr →
      uvc_any2bgr hasJpeg allocOk inf out =
        ((uvc_duplicate_frame allocOk inf out).1, (uvc_duplicate_frame allocOk inf out).2.1)) ∧
    (inf.frame_format ≠ .yuyv → inf.frame_format ≠ .uyvy → inf.frame_format ≠ .rgb →
      inf.frame_format ≠ .mjpeg →
      uvc_any2rgb hasJpeg mjpeg2rgb allocOk inf out = (.notSupported, out)) ∧
    (inf.frame_format ≠ .yuyv → inf.frame_format ≠ .uyvy → inf.frame_format ≠ .bgr →
      uvc_any2bgr hasJpeg allocOk inf out = (.notSupported, out)) ∧
    (inf.frame_format = .mjpeg →
      (hasJpeg = false →
        uvc_any2rgb hasJpeg mjpeg2rgb allocOk inf out = (.notSupported, out)) ∧
      (hasJpeg = true →
        uvc_any2rgb hasJpeg mjpeg2rgb allocOk inf out = mjpeg2rgb inf out) ∧
      uvc_any2bgr hasJpeg allocOk inf out = (.notSupported, out)) := by
  refine ⟨?_, ?_, ?_, ?_, ?_, ?_, ?_⟩
  · intro h
    constructor
    · unfold uvc_any2rgb
      rw [if_neg (by rintro ⟨-, hm⟩; rw [h] at hm; cases hm), h]
    · unfold uvc_any2bgr
      rw [h]
  · intro h
    constructor
    · unfold uvc_any2rgb
      rw [if_neg (by rintro ⟨-, hm⟩; rw [h] at hm; cases hm), h]
    · unfold uvc_any2bgr
      rw [h]
  · intro h
    unfold uvc_any2rgb
    rw [if_neg (by rintro ⟨-, hm⟩; rw [h] at hm; cases hm), h]
  · intro h
    unfold uvc_any2bgr
    rw [h]
  · intro h1 h2 h3 h4
    unfold uvc_any2rgb
    rw [if_neg (by rintro ⟨-, hm⟩; exact h4 hm)]
    cases hf : inf.frame_format <;>
      first
        | rfl
        | exact absurd hf h1
        | exact absurd hf h2
        | exact absurd hf h3
  · intro h1 h2 h3
    unfold uvc_any2bgr
    cases hf : inf.frame_format <;>
      first
        | rfl
        | exact absurd hf h1
        | exact absurd hf h2
        | exact absurd hf h3
  · intro h
    refine ⟨?_, ?_, ?_⟩
    · intro hj
      unfold uvc_any2rgb
      rw [if_neg (by rintro ⟨hjt, -⟩; rw [hj] at hjt; cases hjt), h]
    · intro hj
      unfold uvc_any2rgb
      rw [if_pos ⟨hj, h⟩]
    · unfold uvc_any2bgr
      rw [h]

/-- Witness for the amended C5 theorem at concrete frames: a YUYV source is
dispatched to the YUYV→RGB kernel, and an MJPEG source with the JPEG
collaborator linked in is dispatched to the collaborator by `uvc_any2rgb`
while `uvc_any2bgr` still reports NotSupported. -/
theorem claim_C5_witness :
    let yuyvIn : UvcFrame :=
      { data := some [50, 128, 60, 128], data_bytes := 4, width := 2, height := 1,
        frame_format := .yuyv, step := 4, sequence := 0, capture_time := 0,
        capture_time_finished := 0, source := 0, library_owns_data := true,
        metadata := none, metadata_bytes := 0 }
    let mjpegIn : UvcFrame :=
      { data := some [1, 2], data_bytes := 2, width := 1, height := 1,
        frame_format := .mjpeg, step := 0, sequence := 0, capture_time := 0,
        capture_time_finished := 0, source := 0, library_owns_data := true,
        metadata := none, metadata_bytes := 0 }
    let out : UvcFrame :=
      { data := none, data_bytes := 0, width := 0, height := 0,
        frame_format := .unknown, step := 0, sequence := 0, capture_time := 0,
        capture_time_finished := 0, source := 0, library_owns_data := true,
        metadata := none, metadata_bytes := 0 }
    uvc_any2rgb true (fun a b => (.success, b)) true yuyvIn out =
      ((uvc_yuyv2rgb true yuyvIn out).1, (uvc_yuyv2rgb true yuyvIn out).2.1) ∧
    uvc_any2rgb true (fun a b => (.success, b)) true mjpegIn out = (.success, out) ∧
    uvc_any2bgr true true mjpegIn out = (.notSupported, out) :=
  ⟨((claim_C5_dispatch true true (fun a b => (.success, b)) _ _).1 rfl).1,
   ((claim_C5_dispatch true true (fun a b => (.success, b)) _ _).2.2.2.2.2.2 rfl).2.1 rfl,
   ((claim_C5_dispatch true true (fun a b => (.success, b)) _ _).2.2.2.2.2.2 rfl).2.2⟩

/-- Closed form of the GRAY8 extraction loop: one byte per destination
position, read from source offset `2*j + off`, whenever the fuel suffices. -/
lemma planeLoop_eq_map (off : Nat) (src : List Nat) (fuel : Nat) :
    ∀ pyuv py py_end, py_end - py ≤ fuel →
      planeLoop off src fuel pyuv py py_end =
        (List.range (py_end - py)).map (fun j => readByte src (pyuv + 2 * j + off)) := by
  induction fuel with
  | zero =>
    intro pyuv py py_end h
    have hm : py_end - py = 0 := by omega
    rw [hm]
    rfl
  | succ fuel ih =>
    intro pyuv py py_end h
    by_cases hlt : py < py_end
    · have hm : py_end - py = (py_end - (py + 1)) + 1 := by omega
      simp only [planeLoop, if_pos hlt]
      rw [ih (pyuv + 2) (py + 1) py_end (by omega), hm, List.range_succ_eq_map]
      simp only [List.map_cons, List.map_map]
      congr 1
      apply List.map_congr_left
      intro a _
      simp only [Function.comp, Nat.succ_eq_add_one]
      congr 1
      ring
    · have hm : py_end - py = 0 := by omega
      rw [hm]
      simp only [planeLoop, if_neg hlt]
      rfl

/-- Claim C10 as frozen is false on the code: it asserts the number of bytes
written equals `dst.data_bytes`, but the RGB loop advances 24 bytes per
iteration and overshoots whenever `data_bytes` is not a multiple of 24.
Concrete input: a successful 1×1 YUYV→RGB conversion has `data_bytes = 3`
while its loop — `convLoop` applied exactly as in `uvc_yuyv2rgb` — emits 24
bytes; moreover `uvc_yuyv2bgr`, cited by the claim, contains no loop at all
and writes no data bytes. -/
theorem claim_C10_counterexample :
    let inf : UvcFrame :=
      { data := some [100, 128], data_bytes := 2, width := 1, height := 1,
        frame_format := .yuyv, step := 2, sequence := 0, capture_time := 0,
        capture_time_finished := 0, source := 0, library_owns_data := false,
        metadata := none, metadata_bytes := 0 }
    let out : UvcFrame :=
      { data := none, data_bytes := 0, width := 0, height := 0,
        frame_format := .unknown, step := 0, sequence := 0, capture_time := 0,
        capture_time_finished := 0, source := 0, library_owns_data := true,
        metadata := none, metadata_bytes := 0 }
    (uvc_yuyv2rgb true inf out).1 = .success ∧
    (uvc_yuyv2rgb true inf out).2.1.data_bytes = 3 ∧
    (convLoop iyuyv2rgb_2 (frameBytes inf) 3 0 0 3).length = 24 ∧
    ¬ (convLoop iyuyv2rgb_2 (frameBytes inf) 3 0 0 3).length = 3 := by
  decide

/-- Claim C10, amended: the pixel loops that exist (`uvc_yuyv2rgb`,
`uvc_uyvy2rgb`, `uvc_uyvy2bgr`, `uvc_yuyv2y`, `uvc_yuyv2uv`) terminate on
the destination's `data_bytes`, not on the computed size.  The RGB/BGR loops
emit `24 * ⌈data_bytes / 24⌉` bytes — equal to `data_bytes` only when it is
a multiple of 24 — and read only source bytes below `16 * ⌈data_bytes / 24⌉`
(2 source bytes per 3 output bytes, block-rounded); the GRAY8 loops emit
exactly `data_bytes` bytes and read only below `2 * data_bytes`.  When
`data_bytes` is the computed size `w*h*3` and `w*h` is a multiple of 8, the
writes equal `data_bytes` exactly and the reads stop at `2*w*h`.
`uvc_yuyv2bgr` has its loop commented out and leaves the destination's data
buffer exactly as the size check left it. -/
theorem claim_C10_loop_extents (src src2 : List Nat) (db off w h : Nat) :
    ((convLoop iyuyv2rgb_2 src db 0 0 db).length = 24 * ((db + 23) / 24) ∧
     (convLoop iuyvy2rgb_2 src db 0 0 db).length = 24 * ((db + 23) / 24) ∧
     (convLoop iuyvy2bgr_2 src db 0 0 db).length = 24 * ((db + 23) / 24)) ∧
    ((∀ i, i < 16 * ((db + 23) / 24) → readByte src i = readByte src2 i) →
      convLoop iyuyv2rgb_2 src db 0 0 db = convLoop iyuyv2rgb_2 src2 db 0 0 db) ∧
    (off ≤ 1 →
      (planeLoop off src db 0 0 db).length = db ∧
      ((∀ i, i < 2 * db → readByte src i = readByte src2 i) →
        planeLoop off src db 0 0 db = planeLoop off src2 db 0 0 db)) ∧
    (db = w * h * 3 → w * h % 8 = 0 →
      (convLoop iyuyv2rgb_2 src db 0 0 db).length = db ∧
      16 * ((db + 23) / 24) = 2 * (w * h)) ∧
    (∀ (allocOk : Bool) (inf out : UvcFrame),
      inf.frame_format = .yuyv →
      (uvc_ensure_frame_size allocOk out (inf.width * inf.height * 3)).1.isNeg = false →
      (uvc_yuyv2bgr allocOk inf out).2.1.data =
        (uvc_ensure_frame_size allocOk out (inf.width * inf.height * 3)).2.1.data) := by
  have hconv : ∀ (g2 : Nat → Nat → Nat → Nat → List Nat) (s : List Nat),
      convLoop g2 s db 0 0 db = blocks g2 s 0 ((db + 23) / 24) := by
    intro g2 s
    rw [convLoop_eq_blocks g2 s db 0 0 db (by omega), Nat.sub_zero]
  have hlenconv : ∀ (g2 : Nat → Nat → Nat → Nat → List Nat),
      (∀ a b c d, (g2 a b c d).length = 6) →
      (convLoop g2 src db 0 0 db).length = 24 * ((db + 23) / 24) := by
    intro g2 hl
    rw [hconv g2 src]
    exact blocks_length g2 src hl _ 0
  refine ⟨⟨hlenconv _ iyuyv2rgb_2_length, hlenconv _ iuyvy2rgb_2_length,
           hlenconv _ iuyvy2bgr_2_length⟩, ?_, ?_, ?_, ?_⟩
  · intro hag
    rw [hconv iyuyv2rgb_2 src, hconv iyuyv2rgb_2 src2]
    exact blocks_agree iyuyv2rgb_2 src src2 _ 0 (fun i h1 h2 => hag i (by omega))
  · intro hoff
    constructor
    · rw [planeLoop_eq_map off src db 0 0 db (by omega), Nat.sub_zero]
      simp
    · intro hag
      rw [planeLoop_eq_map off src db 0 0 db (by omega),
          planeLoop_eq_map off src2 db 0 0 db (by omega)]
      apply List.map_congr_left
      intro j hj
      simp only [List.mem_range] at hj
      exact hag (0 + 2 * j + off) (by omega)
  · intro hdb hmod
    obtain ⟨p, hp⟩ : ∃ p, p = w * h := ⟨w * h, rfl⟩
    rw [← hp] at hdb hmod ⊢
    constructor
    · rw [hlenconv _ iyuyv2rgb_2_length]
      omega
    · omega
  · intro allocOk inf out hfmt hnn
    unfold uvc_yuyv2bgr
    rw [if_neg (by simp [hfmt])]
    dsimp only
    rw [if_neg (by simp [hnn])]

/-- Witness for the amended C10 theorem at concrete values: `data_bytes = 24`
(a 4×2 frame, 8 pixels), where the RGB loop writes exactly 24 bytes and the
GRAY8 loop (chroma offset 1) writes 24 bytes from 48 source bytes. -/
theorem claim_C10_witness :
    (convLoop iyuyv2rgb_2 (List.replicate 48 9) 24 0 0 24).length = 24 * ((24 + 23) / 24) ∧
    (planeLoop 1 (List.replicate 48 9) 24 0 0 24).length = 24 ∧
    (convLoop iyuyv2rgb_2 (List.replicate 48 9) 24 0 0 24).length = 24 ∧
    16 * ((24 + 23) / 24) = 2 * (4 * 2) :=
  ⟨(claim_C10_loop_extents (List.replicate 48 9) (List.replicate 48 9) 24 1 4 2).1.1,
   ((claim_C10_loop_extents (List.replicate 48 9) (List.replicate 48 9) 24 1 4 2).2.2.1
     (by decide)).1,
   ((claim_C10_loop_extents (List.replicate 48 9) (List.replicate 48 9) 24 1 4 2).2.2.2.1
     (by decide) (by decide)).1,
   ((claim_C10_loop_extents (List.replicate 48 9) (List.replicate 48 9) 24 1 4 2).2.2.2.1
     (by decide) (by decide)).2⟩
